import Mathlib

/-!
# Verification of the trivia question-bank service (backend/flaskr/__init__.py)

A shallow embedding of the Flask request handlers of the trivia API:
pagination, question listing, deletion, creation, search and the quiz
selector.  The Question Store (SQLAlchemy/`models.py`, not part of the
handler source) is modelled, as the spec directs, as an ordered collection
of records queryable by id, category and case-insensitive substring match
on the question text.  Machine-level concerns (HTTP parsing, CORS, JSON
serialisation) are outside the embedded core; each handler is a pure
function from its parsed inputs and the store to a response value that
records the JSON body fields and the HTTP status code.
-/

/-- A stored trivia question.  `category` is kept as a string: the source
compares it with `str(category_id)` in `get_questions_by_category` and the
test suite inserts questions with `category="1"`. -/
structure Question where
  id : Nat
  question : String
  answer : String
  difficulty : Int
  category : String
deriving Repr, DecidableEq

/-- The five-field object produced by `Question.format()` in `models.py`:
exactly `id, question, answer, difficulty, category`. -/
structure FormattedQuestion where
  id : Nat
  question : String
  answer : String
  difficulty : Int
  category : String
deriving Repr, DecidableEq

/-- `q.format()`: the five stored fields, unchanged. -/
def Question.format (q : Question) : FormattedQuestion :=
  { id := q.id, question := q.question, answer := q.answer,
    difficulty := q.difficulty, category := q.category }

/-- A category record (id, display string). -/
structure Category where
  id : Nat
  type : String
deriving Repr, DecidableEq

/-- The Question Store: the ordered collection of question records. -/
abbrev Store := List Question

/-- Clamp a Python slice index to `0 .. n` for a sequence of length `n`:
a negative index counts from the end (and clamps at 0), a non-negative
index clamps at `n`. -/
def pyIdx (n : Nat) (i : Int) : Nat :=
  if i < 0 then (i + n).toNat else min i.toNat n

/-- Python's `l[start:stop]` (step 1): both indices are clamped by `pyIdx`
and the slice is empty when the clamped start is at or past the clamped
stop.  No index error is ever raised. -/
def pySlice (l : List α) (start stop : Int) : List α :=
  (l.take (pyIdx l.length stop)).drop (pyIdx l.length start)

/-- `QUESTIONS_PER_PAGE` from the source. -/
def QUESTIONS_PER_PAGE : Nat := 10

/-- `paginate_questions(request, selection)`: reads the `page` query
parameter (an arbitrary integer; Flask supplies the default 1 when the
parameter is absent or not an integer), formats every question of the
selection, and returns the Python slice
`questions[(page-1)*10 : (page-1)*10 + 10]`. -/
def paginate_questions (page : Int) (selection : List Question) : List FormattedQuestion :=
  let start : Int := (page - 1) * QUESTIONS_PER_PAGE
  let stop : Int := start + QUESTIONS_PER_PAGE
  let questions := selection.map Question.format
  pySlice questions start stop

/-- Insert a question into a list sorted by ascending id (helper for
`sortById`). -/
def insertById (q : Question) : List Question → List Question
  | [] => [q]
  | r :: rs => if q.id ≤ r.id then q :: r :: rs else r :: insertById q rs

/-- `Question.query.order_by(Question.id)`: the store's records in
ascending id order (insertion sort; the store's query interface returns
the records sorted by the id column). -/
def sortById : List Question → List Question
  | [] => []
  | q :: qs => insertById q (sortById qs)

/-- Case-insensitive substring test on character lists: does `needle`
occur contiguously inside `hay`? -/
def containsSub : List Char → List Char → Bool
  | needle, [] => needle.isEmpty
  | needle, hay@(_ :: t) => needle.isPrefixOf hay || containsSub needle t

/-- The store query `Question.question.ilike('%term%')`, modelled per the
spec's store abstraction as a case-insensitive substring match of the term
against the question text (SQL `ILIKE` folds case, modelled by lowering
every character; the surrounding `%` wildcards make it a substring
match). -/
def ilikeMatch (term text : String) : Bool :=
  containsSub (term.toList.map Char.toLower) (text.toList.map Char.toLower)

/-- Response of `POST /questions/search`.  `notFound` carries HTTP 404 with
body `{error: 404, message: 'Not Found'}`; `ok` carries HTTP 200 with the
listed fields and `success: true`. -/
inductive SearchResp
  | notFound
  | ok (questions : List FormattedQuestion) (total_questions : Nat)
      (current_category : List String)
deriving Repr, DecidableEq

/-- HTTP status code of a search response. -/
def SearchResp.status : SearchResp → Nat
  | .notFound => 404
  | .ok _ _ _ => 200

/-- `search_questions` (`POST /questions/search`): reads `searchTerm` from
the body (`None` when the key is absent).  A missing or empty (falsy) term
aborts with 404.  Otherwise the handler filters the id-ordered store by the
`ilike('%term%')` pattern, and answers with the formatted matches, their
count, and the list holding each matched question's category (one entry per
match, in query order — the source's
`current_category = [q.category for q in questions]`). -/
def search_questions (search : Option String) (store : Store) : SearchResp :=
  match search with
  | none => .notFound
  | some s =>
    if s.isEmpty then .notFound
    else
      let questions := (sortById store).filter (fun q => ilikeMatch s q.question)
      .ok (questions.map Question.format) questions.length
        (questions.map (fun q => q.category))

/-- The client-supplied `quiz_category` descriptor `{type, id}`.  The id is
kept as a string, matching the stored `Question.category` column it is
compared against (the test suite sends `'id': '1'`). -/
structure QuizCategory where
  type : String
  id : String
deriving Repr, DecidableEq

/-- `play_quiz` (`POST /quizzes`), given the parsed `previous_questions`
list and `quiz_category` descriptor.  When the descriptor's `type` is the
sentinel `'click'` the pool is every question whose id is not among the
previous ones; otherwise the store is first filtered by
`category == quiz_category['id']` and then by the same not-in filter.
`random.choice` is modelled by an injectable random draw `rng`, reduced
modulo the pool size; an empty pool yields `question: null`.  Either way
the response is HTTP 200 with `success: true`. -/
def play_quiz (rng : Nat) (previous_questions : List Nat)
    (quiz_category : QuizCategory) (store : Store) : Option FormattedQuestion :=
  let questions :=
    if quiz_category.type == "click" then
      store.filter (fun q => !(previous_questions.contains q.id))
    else
      (store.filter (fun q => q.category == quiz_category.id)).filter
        (fun q => !(previous_questions.contains q.id))
  if h : 0 < questions.length then
    some ((questions.get ⟨rng % questions.length, Nat.mod_lt _ h⟩).format)
  else
    none

/-- The candidate set of the quiz selector as the spec describes it:
questions matching the category filter whose id is not in
`previousIds`. -/
def quizCandidates (previous_questions : List Nat) (quiz_category : QuizCategory)
    (store : Store) : List Question :=
  if quiz_category.type = "click" then
    store.filter (fun q => !(previous_questions.contains q.id))
  else
    store.filter (fun q =>
      !(previous_questions.contains q.id) && q.category == quiz_category.id)

/-- Uniform draw from a list: element at index `rng mod length`, or `none`
when the list is empty (the shape of `random.choice` guarded by a
length check). -/
def quizChoice (rng : Nat) (l : List Question) : Option FormattedQuestion :=
  if h : 0 < l.length then
    some ((l.get ⟨rng % l.length, Nat.mod_lt _ h⟩).format)
  else
    none

/-- Response of `DELETE /questions/<id>`.  `ok` is HTTP 200 with
`success: true`; `unprocessable` is HTTP 422 with body
`{error: 422, message: 'Unprocessable'}`. -/
inductive DeleteResp
  | ok (deleted : Nat) (questions : List FormattedQuestion) (total_questions : Nat)
  | unprocessable
deriving Repr, DecidableEq

/-- HTTP status code of a delete response. -/
def DeleteResp.status : DeleteResp → Nat
  | .ok _ _ _ => 200
  | .unprocessable => 422

/-- SQLAlchemy's `one_or_none()` on the query filtered by id: `none` for no
match, the unique match when there is exactly one, and an error
(`MultipleResultsFound`) otherwise. -/
def one_or_none (store : Store) (question_id : Nat) : Except Unit (Option Question) :=
  match store.filter (fun q => q.id == question_id) with
  | [] => .ok none
  | [q] => .ok (some q)
  | _ => .error ()

/-- `delete_question` (`DELETE /questions/<id>`).  The whole handler body
runs inside `try: ... except: abort(422)`.  When the id has no match the
source executes `abort(404)`, but that `NotFound` exception is raised
inside the `try` block and the bare `except:` catches it and re-aborts
with 422 — so an absent id answers 422, and the store is untouched.  On a
unique match the row is deleted, the id-ordered remainder is re-paginated
with the request's `page` parameter, and the response carries the deleted
id, that page, and the new total.  Returns the response together with the
store after the request. -/
def delete_question (page : Int) (question_id : Nat) (store : Store) :
    DeleteResp × Store :=
  match one_or_none store question_id with
  | .error _ => (.unprocessable, store)
  | .ok none => (.unprocessable, store)
  | .ok (some _) =>
    let store2 := store.filter (fun q => !(q.id == question_id))
    let refreshed_set := sortById store2
    let current_set := paginate_questions page refreshed_set
    (.ok question_id current_set store2.length, store2)

/-- A parsed JSON body for `POST /questions`: each of the four expected
keys is `some value` when present and `none` when absent (the handler only
tests key presence and never validates the values). -/
structure AddBody where
  question : Option String
  answer : Option String
  difficulty : Option Int
  category : Option String
deriving Repr, DecidableEq

/-- Response of `POST /questions`.  `created` is HTTP 200 with
`success: true`; `unprocessable` is HTTP 422; `serverError` is the HTTP 500
produced by Flask's error handler when the handler raises an uncaught
exception. -/
inductive AddResp
  | created (id : Nat)
  | unprocessable
  | serverError
deriving Repr, DecidableEq

/-- HTTP status code of an add response. -/
def AddResp.status : AddResp → Nat
  | .created _ => 200
  | .unprocessable => 422
  | .serverError => 500

/-- Modelled from the spec: the store (`models.py`, not under the handler
source) assigns a fresh unique integer id on insert — here one more than
the largest id in use. -/
def nextId (store : Store) : Nat :=
  (store.map (fun q => q.id)).foldr max 0 + 1

/-- `add_question` (`POST /questions`).  When `get_json()` yields `None`
(the body is JSON `null`), the membership test `'question' in body` raises
a `TypeError` before any `try` block is entered, so the exception escapes
the handler and Flask answers 500.  With a JSON object, the handler aborts
422 unless all four keys `question, answer, difficulty, category` are
present (values unchecked), and otherwise inserts the new question and
answers with its assigned id.  Returns the response together with the
store after the request. -/
def add_question (body : Option AddBody) (store : Store) : AddResp × Store :=
  match body with
  | none => (.serverError, store)
  | some b =>
    match b.question, b.answer, b.difficulty, b.category with
    | some q, some a, some d, some c =>
      let new := Question.mk (nextId store) q a d c
      (.created new.id, store ++ [new])
    | _, _, _, _ => (.unprocessable, store)

/-- Response of `GET /questions`.  Both variants are HTTP 200 (`jsonify`'s
default): `emptyPage` is the `{'success': False, 'message': 'resource not
found'}` body returned when the requested page holds no questions, `ok` is
the success body. -/
inductive QuestionsListResp
  | emptyPage (success : Bool) (message : String)
  | ok (questions : List FormattedQuestion) (total_questions : Nat)
      (categories : List (Nat × String)) (current_category : Option Nat)
deriving Repr, DecidableEq

/-- HTTP status code of a questions-list response: `jsonify` answers 200
for both bodies. -/
def QuestionsListResp.status : QuestionsListResp → Nat
  | .emptyPage _ _ => 200
  | .ok _ _ _ _ => 200

/-- `get_questions` (`GET /questions`): paginate the id-ordered store with
the request's `page` parameter; an empty page answers the HTTP 200 body
`success: false, message: 'resource not found'`, a non-empty page answers
the page, the total count, the category mapping and
`current_category: null`. -/
def get_questions (page : Int) (store : Store) (categories : List Category) :
    QuestionsListResp :=
  let q_set := sortById store
  let current_questions := paginate_questions page q_set
  if current_questions.length = 0 then
    .emptyPage false "resource not found"
  else
    .ok current_questions q_set.length
      (categories.map (fun c => (c.id, c.type))) none

section PaginationLemmas

theorem length_insertById (q : Question) (l : List Question) :
    (insertById q l).length = l.length + 1 := by
  induction l with
  | nil => rfl
  | cons r rs ih =>
    simp only [insertById]
    split <;> simp [ih]

theorem length_sortById (l : List Question) :
    (sortById l).length = l.length := by
  induction l with
  | nil => rfl
  | cons q qs ih => simp [sortById, length_insertById, ih]

theorem mem_insertById {r q : Question} {l : List Question} :
    r ∈ insertById q l ↔ r = q ∨ r ∈ l := by
  induction l with
  | nil => simp [insertById]
  | cons s ss ih =>
    simp only [insertById]
    split
    · simp [List.mem_cons]
    · simp [List.mem_cons, ih]
      tauto

theorem mem_sortById {r : Question} {l : List Question} :
    r ∈ sortById l ↔ r ∈ l := by
  induction l with
  | nil => simp [sortById]
  | cons q qs ih => simp [sortById, mem_insertById, ih]

theorem pySlice_nonneg_eq (l : List α) (st : Nat) {start stop : Int}
    (hstart : start = (st : Int)) (hstop : stop = (st : Int) + QUESTIONS_PER_PAGE) :
    pySlice l start stop = (l.drop st).take QUESTIONS_PER_PAGE := by
  subst hstart hstop
  simp only [pySlice, pyIdx, QUESTIONS_PER_PAGE]
  push_cast
  have h10 : ((st : Int) + 10).toNat = st + 10 := by omega
  have hst : ((st : Int)).toNat = st := by omega
  rw [if_neg (by omega), if_neg (by omega), h10, hst]
  rcases Nat.le_total st l.length with hle | hle
  · rw [Nat.min_eq_left hle, List.drop_take]
    have hmin : min (st + 10) l.length - st = min 10 (l.length - st) := by omega
    rw [hmin]
    rcases Nat.le_total 10 (l.length - st) with h | h
    · rw [Nat.min_eq_left h]
    · rw [Nat.min_eq_right h]
      rw [List.take_of_length_le (by simp),
        List.take_of_length_le (by simp; omega)]
  · have h1 : min (st + 10) l.length = l.length := by omega
    have h2 : min st l.length = l.length := by omega
    rw [h1, h2, List.take_length, List.drop_eq_nil_of_le (by omega),
      List.drop_eq_nil_of_le (by omega), List.take_nil]

end PaginationLemmas

/-- C2: for every page number ≥ 1 and every selection, `paginate_questions`
returns the contiguous slice of the formatted sequence starting at
`(page-1)*10` of at most 10 items; its length is `min 10 (L - start)`
(natural subtraction, i.e. `min(pageSize, max(0, L - start))`), and a start
at or past the end yields the empty list (the function is total: no error
is raised). -/
theorem paginate_questions_spec (page : Int) (selection : List Question)
    (hpage : 1 ≤ page) :
    paginate_questions page selection =
      ((selection.map Question.format).drop (((page - 1) * 10).toNat)).take 10 ∧
    (paginate_questions page selection).length =
      min 10 (selection.length - ((page - 1) * 10).toNat) ∧
    (selection.length ≤ ((page - 1) * 10).toNat → paginate_questions page selection = []) := by
  set st : Nat := ((page - 1) * 10).toNat with hst
  have hcast : ((page - 1) * 10 : Int) = (st : Int) := by
    rw [hst]; omega
  have heq : paginate_questions page selection =
      ((selection.map Question.format).drop st).take 10 := by
    unfold paginate_questions
    rw [pySlice_nonneg_eq (selection.map Question.format) st
      (by rw [QUESTIONS_PER_PAGE]; push_cast; omega)
      (by rw [QUESTIONS_PER_PAGE]; push_cast; omega)]
    rfl
  refine ⟨heq, ?_, ?_⟩
  · rw [heq]; simp [Nat.min_comm]
  · intro hle
    rw [heq, List.drop_eq_nil_of_le (by simp [hle]), List.take_nil]

/-- Witness for C2 at page 2 of a 15-question selection. -/
theorem paginate_questions_spec_witness :
    (1 : Int) ≤ 2 ∧
    (paginate_questions 2 (List.range 15 |>.map
        (fun i => Question.mk i "q" "a" 1 "1")) =
      (((List.range 15 |>.map (fun i => Question.mk i "q" "a" 1 "1")).map
        Question.format).drop ((((2 : Int) - 1) * 10).toNat)).take 10 ∧
      (paginate_questions 2 (List.range 15 |>.map
        (fun i => Question.mk i "q" "a" 1 "1"))).length =
        min 10 ((List.range 15 |>.map
          (fun i => Question.mk i "q" "a" 1 "1")).length -
          (((2 : Int) - 1) * 10).toNat) ∧
      ((List.range 15 |>.map (fun i => Question.mk i "q" "a" 1 "1")).length ≤
          (((2 : Int) - 1) * 10).toNat →
        paginate_questions 2 (List.range 15 |>.map
          (fun i => Question.mk i "q" "a" 1 "1")) = [])) :=
  ⟨by decide,
   paginate_questions_spec 2 (List.range 15 |>.map
     (fun i => Question.mk i "q" "a" 1 "1")) (by decide)⟩

section QuizLemmas

theorem play_quiz_eq_quizChoice (rng : Nat) (previous_questions : List Nat)
    (quiz_category : QuizCategory) (store : Store) :
    play_quiz rng previous_questions quiz_category store =
      quizChoice rng (quizCandidates previous_questions quiz_category store) := by
  have hpool :
      (if quiz_category.type == "click" then
        store.filter (fun q => !(previous_questions.contains q.id))
      else
        (store.filter (fun q => q.category == quiz_category.id)).filter
          (fun q => !(previous_questions.contains q.id))) =
      quizCandidates previous_questions quiz_category store := by
    by_cases hc : quiz_category.type = "click"
    · simp [quizCandidates, hc]
    · simp [quizCandidates, hc, List.filter_filter]
  have h1 : play_quiz rng previous_questions quiz_category store =
      quizChoice rng
        (if quiz_category.type == "click" then
          store.filter (fun q => !(previous_questions.contains q.id))
        else
          (store.filter (fun q => q.category == quiz_category.id)).filter
            (fun q => !(previous_questions.contains q.id))) := rfl
  rw [h1]
  exact congrArg (quizChoice rng) hpool

theorem quizCandidates_id_not_mem {previous_questions : List Nat}
    {quiz_category : QuizCategory} {store : Store} {q : Question}
    (h : q ∈ quizCandidates previous_questions quiz_category store) :
    q.id ∉ previous_questions := by
  unfold quizCandidates at h
  split at h
  · simp only [List.mem_filter, Bool.not_eq_eq_eq_not, Bool.not_true] at h
    intro hmem
    have := h.2
    simp [List.elem_iff.2 hmem, List.contains] at this
    exact this hmem
  · simp only [List.mem_filter, Bool.and_eq_true, Bool.not_eq_eq_eq_not,
      Bool.not_true] at h
    intro hmem
    have := h.2.1
    simp [List.elem_iff.2 hmem, List.contains] at this
    exact this hmem

end QuizLemmas

/-- C1: the quiz selector returns `null` exactly when the candidate set
(questions matching the category filter whose id is not among
`previous_questions`) is empty, and otherwise returns the formatted image
of an element of the candidate set — in particular the returned question's
id is never among `previous_questions`. -/
theorem play_quiz_selects_candidate (rng : Nat) (previous_questions : List Nat)
    (quiz_category : QuizCategory) (store : Store) :
    match play_quiz rng previous_questions quiz_category store with
    | none => quizCandidates previous_questions quiz_category store = []
    | some fq =>
      (∃ q ∈ quizCandidates previous_questions quiz_category store, fq = q.format) ∧
      fq.id ∉ previous_questions := by
  rw [play_quiz_eq_quizChoice]
  rcases hl : quizCandidates previous_questions quiz_category store with _ | ⟨q0, qs⟩
  · simp [quizChoice]
  · have hpos : 0 < (q0 :: qs).length := by simp
    have hmem : (q0 :: qs).get ⟨rng % (q0 :: qs).length, Nat.mod_lt _ hpos⟩ ∈ q0 :: qs :=
      List.get_mem _ _ _
    have hq : (q0 :: qs).get ⟨rng % (q0 :: qs).length, Nat.mod_lt _ hpos⟩ ∈
        quizCandidates previous_questions quiz_category store := by
      rw [hl]; exact List.get_mem _ _ _
    simp only [quizChoice, dif_pos hpos]
    exact ⟨⟨_, hmem, rfl⟩, quizCandidates_id_not_mem hq⟩

/-- C9: the "all categories" sentinel of `POST /quizzes` is exactly a
descriptor whose `type` equals `'click'`: with it the pool is every
question not among `previous_questions`, and with any other descriptor the
pool is additionally restricted to questions whose stored category equals
the descriptor's `id` field; the answered question is a uniform draw from
that pool. -/
theorem play_quiz_pool_by_sentinel (rng : Nat) (previous_questions : List Nat)
    (quiz_category : QuizCategory) (store : Store) :
    play_quiz rng previous_questions quiz_category store =
      quizChoice rng
        (if quiz_category.type = "click" then
          store.filter (fun q => !(previous_questions.contains q.id))
        else
          store.filter (fun q =>
            !(previous_questions.contains q.id) && q.category == quiz_category.id)) := by
  rw [play_quiz_eq_quizChoice]
  rfl

/-- C5: when the requested page of `GET /questions` holds zero questions
(a page past the last one, or an empty store), the handler answers HTTP 200
— not an HTTP error status — with body `success: false` and message
`'resource not found'`. -/
theorem get_questions_empty_page (page : Int) (store : Store)
    (categories : List Category)
    (h : paginate_questions page (sortById store) = []) :
    get_questions page store categories =
      QuestionsListResp.emptyPage false "resource not found" ∧
    (get_questions page store categories).status = 200 := by
  have hz : (paginate_questions page (sortById store)).length = 0 := by
    rw [h]; rfl
  constructor
  · simp only [get_questions, if_pos hz]
  · simp only [get_questions, if_pos hz, QuestionsListResp.status]

/-- Witness for C5: page 1 of the empty store. -/
theorem get_questions_empty_page_witness :
    paginate_questions 1 (sortById []) = [] ∧
    (get_questions 1 [] [] = QuestionsListResp.emptyPage false "resource not found" ∧
     (get_questions 1 [] []).status = 200) :=
  ⟨rfl, get_questions_empty_page 1 [] [] rfl⟩

/-- C6: `POST /questions` with a JSON-object body answers 422 whenever one
of the keys `question, answer, difficulty, category` is absent (the values
are never inspected) and the store is untouched; with all four keys present
it appends a new question holding the supplied values, with the
store-assigned id, and answers 200 with that id. -/
theorem add_question_key_check (b : AddBody) (store : Store) :
    match b.question, b.answer, b.difficulty, b.category with
    | some q, some a, some d, some c =>
      add_question (some b) store =
        (AddResp.created (nextId store),
         store ++ [Question.mk (nextId store) q a d c]) ∧
      (AddResp.created (nextId store)).status = 200
    | _, _, _, _ =>
      add_question (some b) store = (AddResp.unprocessable, store) ∧
      AddResp.unprocessable.status = 422 := by
  rcases b with ⟨q, a, d, c⟩
  rcases q with _ | q <;> rcases a with _ | a <;> rcases d with _ | d <;>
    rcases c with _ | c <;> simp [add_question, AddResp.status]

/-- C10: when `get_json()` yields `None`, the key-presence test of
`POST /questions` runs outside any `try` block, raises an uncaught
`TypeError`, and Flask answers 500 — not 422 — leaving the store
untouched. -/
theorem add_question_null_body (store : Store) :
    add_question none store = (AddResp.serverError, store) ∧
    (add_question none store).1.status = 500 ∧
    (add_question none store).1.status ≠ 422 := by
  refine ⟨rfl, rfl, by simp [add_question, AddResp.status]⟩

/-- C7: a successful `DELETE /questions/<id>` (the id references exactly one
stored question) answers the deleted id, the caller's current page obtained
by re-running pagination with the request's `page` parameter over the
id-ordered post-deletion store, and the post-deletion question count; the
store loses exactly the questions with that id. -/
theorem delete_question_success (page : Int) (question_id : Nat) (store : Store)
    (q : Question) (h : store.filter (fun r => r.id == question_id) = [q]) :
    delete_question page question_id store =
      (DeleteResp.ok question_id
        (paginate_questions page
          (sortById (store.filter (fun r => !(r.id == question_id)))))
        (store.filter (fun r => !(r.id == question_id))).length,
       store.filter (fun r => !(r.id == question_id))) := by
  unfold delete_question one_or_none
  rw [h]

/-- Witness for C7: deleting id 1 from a two-question store. -/
theorem delete_question_success_witness :
    ([Question.mk 1 "a" "b" 1 "1", Question.mk 2 "c" "d" 1 "2"].filter
        (fun r => r.id == 1) = [Question.mk 1 "a" "b" 1 "1"]) ∧
    delete_question 1 1 [Question.mk 1 "a" "b" 1 "1", Question.mk 2 "c" "d" 1 "2"] =
      (DeleteResp.ok 1
        (paginate_questions 1
          (sortById ([Question.mk 1 "a" "b" 1 "1", Question.mk 2 "c" "d" 1 "2"].filter
            (fun r => !(r.id == 1)))))
        ([Question.mk 1 "a" "b" 1 "1", Question.mk 2 "c" "d" 1 "2"].filter
          (fun r => !(r.id == 1))).length,
       [Question.mk 1 "a" "b" 1 "1", Question.mk 2 "c" "d" 1 "2"].filter
         (fun r => !(r.id == 1))) :=
  ⟨rfl, delete_question_success 1 1 _ _ rfl⟩

/-- C3 evaluated at its failing input: the source's `abort(404)` for an
absent id is raised inside the handler's `try` block, so the bare `except:`
converts it to 422 — deleting a missing (or already-deleted) id answers
HTTP 422, not the 404 the spec states, though the store is indeed left
unchanged and the deletion is not a silent success. -/
theorem delete_question_absent_id_status :
    delete_question 1 99 [Question.mk 1 "a" "b" 1 "1"] =
      (DeleteResp.unprocessable, [Question.mk 1 "a" "b" 1 "1"]) ∧
    DeleteResp.unprocessable.status = 422 ∧
    DeleteResp.unprocessable.status ≠ 404 := by
  refine ⟨rfl, rfl, by decide⟩

/-- Counterexample to C4 as stated: searching `'cat'` in a store whose two
matching questions share category `"1"` yields
`current_category = ["1", "1"]`, which lists a category twice — the source
never deduplicates `[q.category for q in questions]`. -/
theorem search_current_category_duplicate :
    search_questions (some "cat")
        [Question.mk 1 "cat one" "a" 1 "1", Question.mk 2 "cat two" "b" 1 "1"] =
      SearchResp.ok
        [Question.format (Question.mk 1 "cat one" "a" 1 "1"),
         Question.format (Question.mk 2 "cat two" "b" 1 "1")]
        2 ["1", "1"] ∧
    ¬ List.Nodup ["1", "1"] := by
  refine ⟨by decide, by simp⟩

/-- C4 (amended): for every non-empty search term,
`POST /questions/search` answers exactly the questions whose text contains
the term as a case-insensitive substring (in id order, formatted), their
count as `total_questions`, and as `current_category` the list of each
matched question's category — one entry per match, so a category may
appear more than once. -/
theorem search_questions_spec (term : String) (store : Store) (h : term ≠ "") :
    search_questions (some term) store =
      SearchResp.ok
        (((sortById store).filter (fun q => ilikeMatch term q.question)).map
          Question.format)
        ((sortById store).filter (fun q => ilikeMatch term q.question)).length
        (((sortById store).filter (fun q => ilikeMatch term q.question)).map
          (fun q => q.category)) := by
  have hne : term.isEmpty = false := by
    rcases hb : term.isEmpty with _ | _
    · rfl
    · exact absurd ((String.isEmpty_iff term).mp hb) h
  simp only [search_questions, hne, Bool.false_eq_true, if_false]

/-- Witness for C4 (amended) at the counterexample's store. -/
theorem search_questions_spec_witness :
    ("cat" : String) ≠ "" ∧
    search_questions (some "cat")
        [Question.mk 1 "cat one" "a" 1 "1", Question.mk 2 "cat two" "b" 1 "1"] =
      SearchResp.ok
        ((((sortById [Question.mk 1 "cat one" "a" 1 "1",
            Question.mk 2 "cat two" "b" 1 "1"]).filter
          (fun q => ilikeMatch "cat" q.question)).map Question.format))
        ((sortById [Question.mk 1 "cat one" "a" 1 "1",
            Question.mk 2 "cat two" "b" 1 "1"]).filter
          (fun q => ilikeMatch "cat" q.question)).length
        (((sortById [Question.mk 1 "cat one" "a" 1 "1",
            Question.mk 2 "cat two" "b" 1 "1"]).filter
          (fun q => ilikeMatch "cat" q.question)).map (fun q => q.category)) :=
  ⟨by decide,
   search_questions_spec "cat"
     [Question.mk 1 "cat one" "a" 1 "1", Question.mk 2 "cat two" "b" 1 "1"]
     (by decide)⟩

/-- C8: a non-empty search term that matches no stored question is not an
error: the handler answers HTTP 200 with `success: true`, an empty
questions list and `total_questions = 0`. -/
theorem search_no_match (term : String) (store : Store) (h1 : term ≠ "")
    (h2 : ∀ q ∈ store, ilikeMatch term q.question = false) :
    search_questions (some term) store = SearchResp.ok [] 0 [] ∧
    (search_questions (some term) store).status = 200 := by
  have hfilter : (sortById store).filter (fun q => ilikeMatch term q.question) = [] := by
    rw [List.filter_eq_nil_iff]
    intro q hq
    simp [h2 q (mem_sortById.mp hq)]
  have hmain := search_questions_spec term store h1
  rw [hfilter] at hmain
  exact ⟨hmain, by rw [hmain]; rfl⟩

/-- Witness for C8: the spec's `'zzz-no-match'` scenario on a one-question
store. -/
theorem search_no_match_witness :
    ("zzz-no-match" : String) ≠ "" ∧
    (∀ q ∈ [Question.mk 1 "What is this" "x" 1 "1"],
      ilikeMatch "zzz-no-match" q.question = false) ∧
    (search_questions (some "zzz-no-match") [Question.mk 1 "What is this" "x" 1 "1"] =
        SearchResp.ok [] 0 [] ∧
      (search_questions (some "zzz-no-match")
        [Question.mk 1 "What is this" "x" 1 "1"]).status = 200) :=
  ⟨by decide, by decide,
   search_no_match "zzz-no-match" [Question.mk 1 "What is this" "x" 1 "1"]
     (by decide) (by decide)⟩
